import Mathlib

/-!
Verification of the compute-dispatch command generator in
`src/xrt/compositor/render/render_compute.c` (Monado compositor).

The C code is shallowly embedded: `uint32_t` values become `Nat` with an
explicit `% 2^32` where the arithmetic can overflow, C arrays indexed up to a
count become `List`s or functions `Nat → _`, opaque Vulkan handles
(samplers, image views, buffers, pipelines, layouts) become `Nat`, recorded
command-buffer commands become an inductive `VkCommand`, and the side effects
of a pass (descriptor-set contents, mapped uniform-buffer contents) become
explicit state passing.
-/

/-- The modulus of unsigned 32-bit arithmetic, `2^32`. -/
def UINT32_MOD : Nat := 4294967296

/-- Embedding of `uint_divide_and_round_up` (render_compute.c:33):
`return (a + (b - 1)) / b;` on `uint32_t`, so the addition wraps modulo
`2^32`. -/
def uint_divide_and_round_up (a b : Nat) : Nat :=
  ((a + (b - 1)) % UINT32_MOD) / b

/-- Embedding of `struct render_viewport_data`: a per-view rectangle of
`uint32_t` fields. -/
structure render_viewport_data where
  x : Nat
  y : Nat
  w : Nat
  h : Nat
deriving DecidableEq, Inhabited

/-- Embedding of `calc_dispatch_dims_1_view` (render_compute.c:39): divide the
view extents by the fixed 8x8 work-group tile size, rounding up. -/
def calc_dispatch_dims_1_view (views : render_viewport_data) : Nat × Nat :=
  (uint_divide_and_round_up views.w 8, uint_divide_and_round_up views.h 8)

/-- The `IMAX` fold over view widths in `calc_dispatch_dims_views`
(render_compute.c:62), starting from `w = 0`. -/
def max_extent_w (views : List render_viewport_data) : Nat :=
  views.foldl (fun m v => max m v.w) 0

/-- The `IMAX` fold over view heights in `calc_dispatch_dims_views`
(render_compute.c:62), starting from `h = 0`. -/
def max_extent_h (views : List render_viewport_data) : Nat :=
  views.foldl (fun m v => max m v.h) 0

/-- Embedding of `calc_dispatch_dims_views` (render_compute.c:53): the list
stands for the first `view_count` entries of the C array. -/
def calc_dispatch_dims_views (views : List render_viewport_data) : Nat × Nat :=
  (uint_divide_and_round_up (max_extent_w views) 8,
   uint_divide_and_round_up (max_extent_h views) 8)

/-- Spec-side definition for comparison (spec section 8): the component-wise
maximum of a list of extents, written independently of the source's `IMAX`
fold as a right fold of `max`. -/
def spec_componentwise_max (xs : List Nat) : Nat := xs.foldr max 0

/-- Spec-side definition: component-wise maximum width of the views. -/
def spec_componentwise_max_w (views : List render_viewport_data) : Nat :=
  spec_componentwise_max (views.map fun v => v.w)

/-- Spec-side definition: component-wise maximum height of the views. -/
def spec_componentwise_max_h (views : List render_viewport_data) : Nat :=
  spec_componentwise_max (views.map fun v => v.h)

/-!  Vulkan-side data model.  Handles are `Nat`.  -/

/-- The image layouts this code uses. -/
inductive VkImageLayout where
  | undefined
  | general
  | shaderReadOnlyOptimal
  | presentSrcKhr
deriving DecidableEq

/-- `VK_ACCESS_SHADER_WRITE_BIT` (0x00000040). -/
def VK_ACCESS_SHADER_WRITE_BIT : Nat := 64

/-- `VK_ACCESS_MEMORY_READ_BIT` (0x00008000). -/
def VK_ACCESS_MEMORY_READ_BIT : Nat := 32768

/-- `VK_WHOLE_SIZE` (the all-ones 64-bit value). -/
def VK_WHOLE_SIZE : Nat := 18446744073709551615

/-- A command recorded into the command buffer by this code.  Descriptor-set
updates are host-side effects, not recorded commands, so they are not listed
here; the pre-dispatch barrier carries the source/destination access masks
and the layout transition of its single `VkImageMemoryBarrier`. -/
inductive VkCommand where
  | imageBarrier (image srcAccess dstAccess : Nat) (oldLayout newLayout : VkImageLayout)
  | bindPipeline (pipeline : Nat)
  | bindDescriptorSets (layout : Nat)
  | dispatch (x y z : Nat)
deriving DecidableEq

/-- Modelled from the spec: `vk_cmd_image_barrier_gpu_locked` (a helper from
`vk_mini_helpers.h`, outside the core source) records one image memory
barrier with the given access masks and layout transition on the given
image. -/
def vk_cmd_image_barrier_gpu_locked (image srcAccess dstAccess : Nat)
    (oldLayout newLayout : VkImageLayout) : VkCommand :=
  VkCommand.imageBarrier image srcAccess dstAccess oldLayout newLayout

/-- One slot of a descriptor set: the resource bound there. -/
inductive DescriptorEntry where
  | combinedImageSampler (sampler imageView : Nat) (layout : VkImageLayout)
  | storageImage (imageView : Nat) (layout : VkImageLayout)
  | uniformBuffer (buffer offset range : Nat)
deriving DecidableEq

/-- The contents of a descriptor set: binding number and array index to the
bound resource (`none` when nothing has been bound there). -/
def DescriptorSetState := Nat → Nat → Option DescriptorEntry

/-- One `VkWriteDescriptorSet` applied to the set contents: overwrite `count`
consecutive array elements of binding `binding`. -/
def write_binding (ds : DescriptorSetState) (binding count : Nat)
    (entry : Nat → DescriptorEntry) : DescriptorSetState :=
  fun b i => if b = binding ∧ i < count then some (entry i) else ds b i

/-- Effect on descriptor-set contents of
`update_compute_shared_descriptor_set` (render_compute.c:149): one batched
`vkUpdateDescriptorSets` overwriting the source binding (`view_count`
combined image samplers), the distortion binding (`3 * view_count` combined
image samplers), the target binding (one storage image in `GENERAL` layout)
and the UBO binding (one uniform buffer), applied in that order. -/
def update_compute_shared_descriptor_set (src_binding : Nat)
    (src_samplers src_image_views : Nat → Nat) (distortion_binding : Nat)
    (distortion_samplers distortion_image_views : Nat → Nat)
    (target_binding target_image_view ubo_binding ubo_buffer ubo_size
      view_count : Nat) (ds : DescriptorSetState) : DescriptorSetState :=
  write_binding
    (write_binding
      (write_binding
        (write_binding ds src_binding view_count fun i =>
          DescriptorEntry.combinedImageSampler (src_samplers i)
            (src_image_views i) VkImageLayout.shaderReadOnlyOptimal)
        distortion_binding (3 * view_count) fun i =>
          DescriptorEntry.combinedImageSampler (distortion_samplers i)
            (distortion_image_views i) VkImageLayout.shaderReadOnlyOptimal)
      target_binding 1 fun _ =>
        DescriptorEntry.storageImage target_image_view VkImageLayout.general)
    ubo_binding 1 fun _ =>
      DescriptorEntry.uniformBuffer ubo_buffer 0 ubo_size

/-- Effect on descriptor-set contents of
`update_compute_layer_descriptor_set` (render_compute.c:83): one batched
update overwriting the source binding (`image_count` combined image
samplers), the target binding and the UBO binding. -/
def update_compute_layer_descriptor_set (src_binding : Nat)
    (src_samplers src_image_views : Nat → Nat)
    (image_count target_binding target_image_view ubo_binding ubo_buffer
      ubo_size : Nat) (ds : DescriptorSetState) : DescriptorSetState :=
  write_binding
    (write_binding
      (write_binding ds src_binding image_count fun i =>
        DescriptorEntry.combinedImageSampler (src_samplers i)
          (src_image_views i) VkImageLayout.shaderReadOnlyOptimal)
      target_binding 1 fun _ =>
        DescriptorEntry.storageImage target_image_view VkImageLayout.general)
    ubo_binding 1 fun _ =>
      DescriptorEntry.uniformBuffer ubo_buffer 0 ubo_size

/-!  The `VkWriteDescriptorSet` array view of the layer update, for counting
the entries written (claim C9).  -/

/-- The descriptor types used by the layer-shape update. -/
inductive VkDescriptorType where
  | combinedImageSampler
  | storageImage
  | uniformBuffer
deriving DecidableEq

/-- `VkDescriptorImageInfo`. -/
structure VkDescriptorImageInfo where
  sampler : Nat
  imageView : Nat
  imageLayout : VkImageLayout
deriving DecidableEq

/-- `VkDescriptorBufferInfo`. -/
structure VkDescriptorBufferInfo where
  buffer : Nat
  offset : Nat
  range : Nat
deriving DecidableEq

/-- `VkWriteDescriptorSet`: `descriptorCount` entries written at
`dstBinding`, taken from `imageInfos` or `bufferInfos` depending on the
descriptor type. -/
structure VkWriteDescriptorSet where
  dstSet : Nat
  dstBinding : Nat
  descriptorCount : Nat
  descriptorType : VkDescriptorType
  imageInfos : List VkDescriptorImageInfo
  bufferInfos : List VkDescriptorBufferInfo
deriving DecidableEq

/-- `RENDER_MAX_IMAGES_SIZE`: the fixed maximum number of source images of
the layer shape.  Modelled from the spec: the constant is defined in
`render_interface.h`, outside the core source; the value used here is 16 and
no theorem depends on it. -/
def RENDER_MAX_IMAGES_SIZE : Nat := 16

/-- The `VkWriteDescriptorSet[3]` array that
`update_compute_layer_descriptor_set` (render_compute.c:114) passes to its
single `vkUpdateDescriptorSets` call: `image_count` combined image samplers
at the source binding, one storage image at the target binding, one uniform
buffer at the UBO binding. -/
def update_compute_layer_descriptor_set_writes (src_binding : Nat)
    (src_samplers src_image_views : Nat → Nat)
    (image_count target_binding target_image_view ubo_binding ubo_buffer
      ubo_size descriptor_set : Nat) : List VkWriteDescriptorSet :=
  [{ dstSet := descriptor_set, dstBinding := src_binding,
     descriptorCount := image_count,
     descriptorType := VkDescriptorType.combinedImageSampler,
     imageInfos := (List.range image_count).map fun i =>
       { sampler := src_samplers i, imageView := src_image_views i,
         imageLayout := VkImageLayout.shaderReadOnlyOptimal },
     bufferInfos := [] },
   { dstSet := descriptor_set, dstBinding := target_binding,
     descriptorCount := 1,
     descriptorType := VkDescriptorType.storageImage,
     imageInfos := [{ sampler := 0, imageView := target_image_view,
                      imageLayout := VkImageLayout.general }],
     bufferInfos := [] },
   { dstSet := descriptor_set, dstBinding := ubo_binding,
     descriptorCount := 1,
     descriptorType := VkDescriptorType.uniformBuffer,
     imageInfos := [],
     bufferInfos := [{ buffer := ubo_buffer, offset := 0, range := ubo_size }] }]

/-- Total number of descriptor entries a write list deposits at a given
binding with a given descriptor type. -/
def count_descriptors_at (writes : List VkWriteDescriptorSet)
    (binding : Nat) (ty : VkDescriptorType) : Nat :=
  ((writes.filter fun w => w.dstBinding == binding && w.descriptorType == ty).map
    fun w => w.descriptorCount).sum

/-- Total number of descriptor entries a write list deposits anywhere. -/
def total_descriptor_count (writes : List VkWriteDescriptorSet) : Nat :=
  (writes.map fun w => w.descriptorCount).sum

/-!  The per-view uniform data and the pass state.  -/

/-- A 4x4 matrix value, represented symbolically: the identity, a time warp
matrix determined by its pose/fov inputs, or an arbitrary stale value used
to model whatever a previous frame left in mapped memory. -/
inductive Mat4 where
  | identity
  | timewarp (src_pose src_fov new_pose : Nat)
  | arbitrary (n : Nat)
deriving DecidableEq

/-- Modelled from the spec: `render_calc_time_warp_matrix` (the time warp
matrix calculator, section 4.2, implemented outside this source file)
produces a 4x4 transform determined by the view's original pose and fov and
the new pose; it is represented symbolically by those inputs. -/
def render_calc_time_warp_matrix (src_pose src_fov new_pose : Nat) : Mat4 :=
  Mat4.timewarp src_pose src_fov new_pose

/-- Embedding of `struct render_compute_distortion_ubo_data`: per-view
viewport data, pre-transform (UV-to-tanangle rectangle, an opaque handle),
4x4 transform, and post-transform (normalized source rectangle, an opaque
handle).  The functions stand for the per-view arrays of the mapped uniform
buffer; indices at and above the view count model adjacent mapped memory
that a pass does not touch. -/
structure render_compute_distortion_ubo_data where
  views : Nat → render_viewport_data
  pre_transforms : Nat → Nat
  transforms : Nat → Mat4
  post_transforms : Nat → Nat

/-- Embedding of the parts of `struct render_resources` this code reads. -/
structure render_resources where
  view_count : Nat
  src_binding : Nat
  distortion_binding : Nat
  target_binding : Nat
  ubo_binding : Nat
  clamp_to_edge : Nat
  mock_sampler : Nat
  mock_color_image_view : Nat
  distortion_image_views : Nat → Nat
  uv_to_tanangle : Nat → Nat
  distortion_ubo_buffer : Nat
  clear_ubo_buffer : Nat
  distortion_pipeline : Nat
  distortion_timewarp_pipeline : Nat
  clear_pipeline : Nat
  distortion_pipeline_layout : Nat
  layer_pipeline_layout : Nat
  layer_timewarp_pipeline : Nat
  layer_non_timewarp_pipeline : Nat

/-- The mutable state a shared-set pass touches: the shared descriptor set
contents and the two persistently mapped uniform buffers. -/
structure SharedState where
  shared_ds : DescriptorSetState
  distortion_ubo : render_compute_distortion_ubo_data
  clear_ubo : render_compute_distortion_ubo_data

/-- Result of one shared-set pass call: the state after the call, the
commands this call recorded (in recording order), and whether the
`assert(w != 0 && h != 0)` before the dispatch failed (aborting before the
dispatch was recorded). -/
structure PassResult where
  st : SharedState
  cmds : List VkCommand
  aborted : Bool

/-- Result of one `render_compute_layers` call: the updated contents of the
caller-supplied layer descriptor set, the recorded commands, and the assert
outcome. -/
structure LayerPassResult where
  ds : DescriptorSetState
  cmds : List VkCommand
  aborted : Bool

/-- Embedding of `render_compute_layers` (render_compute.c:391): update the
caller's layer descriptor set, bind the (timewarp or non-timewarp) layer
pipeline and the set, compute the single-view dispatch dimensions, assert
they are non-zero, and dispatch with `groupCountZ = 1`.  No image barriers
are recorded by this pass. -/
def render_compute_layers (r : render_resources) (ubo : Nat)
    (src_samplers src_image_views : Nat → Nat) (num_srcs : Nat)
    (target_image_view : Nat) (view : render_viewport_data)
    (do_timewarp : Bool) (ds : DescriptorSetState) : LayerPassResult :=
  let ds1 := update_compute_layer_descriptor_set r.src_binding src_samplers
    src_image_views num_srcs r.target_binding target_image_view r.ubo_binding
    ubo VK_WHOLE_SIZE ds
  let pipeline := if do_timewarp then r.layer_timewarp_pipeline
    else r.layer_non_timewarp_pipeline
  let wh := calc_dispatch_dims_1_view view
  if wh.1 = 0 ∨ wh.2 = 0 then
    { ds := ds1,
      cmds := [VkCommand.bindPipeline pipeline,
               VkCommand.bindDescriptorSets r.layer_pipeline_layout],
      aborted := true }
  else
    { ds := ds1,
      cmds := [VkCommand.bindPipeline pipeline,
               VkCommand.bindDescriptorSets r.layer_pipeline_layout,
               VkCommand.dispatch wh.1 wh.2 1],
      aborted := false }

/-- Embedding of `render_compute_projection_timewarp`
(render_compute.c:454): compute the per-view time warp matrices, write the
full per-view UBO record (viewport, pre-transform, time warp transform,
post-transform), record the pre-dispatch barrier, rebuild the shared
descriptor set with clamp-to-edge distortion samplers, bind the timewarp
distortion pipeline and the set, and dispatch with `groupCountZ = 2` between
the barriers. -/
def render_compute_projection_timewarp (r : render_resources)
    (src_samplers src_image_views : Nat → Nat) (src_norm_rects : Nat → Nat)
    (src_poses src_fovs new_poses : Nat → Nat)
    (target_image target_image_view : Nat)
    (views : List render_viewport_data) (st : SharedState) : PassResult :=
  let data0 := st.distortion_ubo
  let data1 : render_compute_distortion_ubo_data :=
    { views := fun i => if i < r.view_count then views.getD i default
        else data0.views i,
      pre_transforms := fun i => if i < r.view_count then r.uv_to_tanangle i
        else data0.pre_transforms i,
      transforms := fun i => if i < r.view_count then
        render_calc_time_warp_matrix (src_poses i) (src_fovs i) (new_poses i)
        else data0.transforms i,
      post_transforms := fun i => if i < r.view_count then src_norm_rects i
        else data0.post_transforms i }
  let ds1 := update_compute_shared_descriptor_set r.src_binding src_samplers
    src_image_views r.distortion_binding (fun _ => r.clamp_to_edge)
    r.distortion_image_views r.target_binding target_image_view r.ubo_binding
    r.distortion_ubo_buffer VK_WHOLE_SIZE r.view_count st.shared_ds
  let st1 : SharedState := { st with distortion_ubo := data1, shared_ds := ds1 }
  let wh := calc_dispatch_dims_views (views.take r.view_count)
  if wh.1 = 0 ∨ wh.2 = 0 then
    { st := st1,
      cmds := [vk_cmd_image_barrier_gpu_locked target_image 0
                 VK_ACCESS_SHADER_WRITE_BIT VkImageLayout.undefined
                 VkImageLayout.general,
               VkCommand.bindPipeline r.distortion_timewarp_pipeline,
               VkCommand.bindDescriptorSets r.distortion_pipeline_layout],
      aborted := true }
  else
    { st := st1,
      cmds := [vk_cmd_image_barrier_gpu_locked target_image 0
                 VK_ACCESS_SHADER_WRITE_BIT VkImageLayout.undefined
                 VkImageLayout.general,
               VkCommand.bindPipeline r.distortion_timewarp_pipeline,
               VkCommand.bindDescriptorSets r.distortion_pipeline_layout,
               VkCommand.dispatch wh.1 wh.2 2,
               VkCommand.imageBarrier target_image VK_ACCESS_SHADER_WRITE_BIT
                 VK_ACCESS_MEMORY_READ_BIT VkImageLayout.general
                 VkImageLayout.presentSrcKhr],
      aborted := false }

/-- Embedding of `render_compute_projection` (render_compute.c:590): write
only the per-view viewport and post-transform fields of the distortion UBO
(the pre-transform and transform fields are not written by this pass),
record the pre-dispatch barrier, rebuild the shared descriptor set with
clamp-to-edge distortion samplers, bind the distortion pipeline and the set,
and dispatch with `groupCountZ = 2` between the barriers. -/
def render_compute_projection (r : render_resources)
    (src_samplers src_image_views : Nat → Nat) (src_norm_rects : Nat → Nat)
    (target_image target_image_view : Nat)
    (views : List render_viewport_data) (st : SharedState) : PassResult :=
  let data0 := st.distortion_ubo
  let data1 : render_compute_distortion_ubo_data :=
    { views := fun i => if i < r.view_count then views.getD i default
        else data0.views i,
      pre_transforms := data0.pre_transforms,
      transforms := data0.transforms,
      post_transforms := fun i => if i < r.view_count then src_norm_rects i
        else data0.post_transforms i }
  let ds1 := update_compute_shared_descriptor_set r.src_binding src_samplers
    src_image_views r.distortion_binding (fun _ => r.clamp_to_edge)
    r.distortion_image_views r.target_binding target_image_view r.ubo_binding
    r.distortion_ubo_buffer VK_WHOLE_SIZE r.view_count st.shared_ds
  let st1 : SharedState := { st with distortion_ubo := data1, shared_ds := ds1 }
  let wh := calc_dispatch_dims_views (views.take r.view_count)
  if wh.1 = 0 ∨ wh.2 = 0 then
    { st := st1,
      cmds := [vk_cmd_image_barrier_gpu_locked target_image 0
                 VK_ACCESS_SHADER_WRITE_BIT VkImageLayout.undefined
                 VkImageLayout.general,
               VkCommand.bindPipeline r.distortion_pipeline,
               VkCommand.bindDescriptorSets r.distortion_pipeline_layout],
      aborted := true }
  else
    { st := st1,
      cmds := [vk_cmd_image_barrier_gpu_locked target_image 0
                 VK_ACCESS_SHADER_WRITE_BIT VkImageLayout.undefined
                 VkImageLayout.general,
               VkCommand.bindPipeline r.distortion_pipeline,
               VkCommand.bindDescriptorSets r.distortion_pipeline_layout,
               VkCommand.dispatch wh.1 wh.2 2,
               VkCommand.imageBarrier target_image VK_ACCESS_SHADER_WRITE_BIT
                 VK_ACCESS_MEMORY_READ_BIT VkImageLayout.general
                 VkImageLayout.presentSrcKhr],
      aborted := false }

/-- Embedding of `render_compute_clear` (render_compute.c:714): the source
computes identity matrices into a local `transforms` array and never stores
them, so the clear UBO update writes only the per-view viewport field;
the pass then records the pre-dispatch barrier, rebuilds the shared
descriptor set with the mock sampler and mock source image, binds the clear
pipeline (with the distortion pipeline layout) and the set, and dispatches
with `groupCountZ = 2` between the barriers. -/
def render_compute_clear (r : render_resources)
    (target_image target_image_view : Nat)
    (views : List render_viewport_data) (st : SharedState) : PassResult :=
  let data0 := st.clear_ubo
  let data1 : render_compute_distortion_ubo_data :=
    { views := fun i => if i < r.view_count then views.getD i default
        else data0.views i,
      pre_transforms := data0.pre_transforms,
      transforms := data0.transforms,
      post_transforms := data0.post_transforms }
  let ds1 := update_compute_shared_descriptor_set r.src_binding
    (fun _ => r.mock_sampler) (fun _ => r.mock_color_image_view)
    r.distortion_binding (fun _ => r.mock_sampler) r.distortion_image_views
    r.target_binding target_image_view r.ubo_binding r.clear_ubo_buffer
    VK_WHOLE_SIZE r.view_count st.shared_ds
  let st1 : SharedState := { st with clear_ubo := data1, shared_ds := ds1 }
  let wh := calc_dispatch_dims_views (views.take r.view_count)
  if wh.1 = 0 ∨ wh.2 = 0 then
    { st := st1,
      cmds := [vk_cmd_image_barrier_gpu_locked target_image 0
                 VK_ACCESS_SHADER_WRITE_BIT VkImageLayout.undefined
                 VkImageLayout.general,
               VkCommand.bindPipeline r.clear_pipeline,
               VkCommand.bindDescriptorSets r.distortion_pipeline_layout],
      aborted := true }
  else
    { st := st1,
      cmds := [vk_cmd_image_barrier_gpu_locked target_image 0
                 VK_ACCESS_SHADER_WRITE_BIT VkImageLayout.undefined
                 VkImageLayout.general,
               VkCommand.bindPipeline r.clear_pipeline,
               VkCommand.bindDescriptorSets r.distortion_pipeline_layout,
               VkCommand.dispatch wh.1 wh.2 2,
               VkCommand.imageBarrier target_image VK_ACCESS_SHADER_WRITE_BIT
                 VK_ACCESS_MEMORY_READ_BIT VkImageLayout.general
                 VkImageLayout.presentSrcKhr],
      aborted := false }

/-!  Command-trace predicates for the barrier-ordering claim.  -/

/-- Default command for out-of-range trace indexing; never a dispatch or a
barrier. -/
def cmd_default : VkCommand := VkCommand.bindPipeline 0

/-- The pre-dispatch barrier for a target image: access `0` to shader write,
layout `UNDEFINED` to `GENERAL`. -/
def pre_barrier_cmd (target : Nat) : VkCommand :=
  VkCommand.imageBarrier target 0 VK_ACCESS_SHADER_WRITE_BIT
    VkImageLayout.undefined VkImageLayout.general

/-- The post-dispatch barrier for a target image: shader write to memory
read, layout `GENERAL` to `PRESENT_SRC_KHR`. -/
def post_barrier_cmd (target : Nat) : VkCommand :=
  VkCommand.imageBarrier target VK_ACCESS_SHADER_WRITE_BIT
    VK_ACCESS_MEMORY_READ_BIT VkImageLayout.general VkImageLayout.presentSrcKhr

/-- The barrier-ordering property of a recorded trace: every dispatch in the
trace has the pre-dispatch barrier for the target strictly before it and the
post-dispatch barrier strictly after it. -/
def barrier_ordering_ok (cmds : List VkCommand) (target : Nat) : Prop :=
  ∀ j x y z, cmds.getD j cmd_default = VkCommand.dispatch x y z →
    (∃ i, i < j ∧ cmds.getD i cmd_default = pre_barrier_cmd target) ∧
    (∃ k, j < k ∧ cmds.getD k cmd_default = post_barrier_cmd target)

/-- The `groupCountZ` of every dispatch in a trace, in order. -/
def dispatch_depths (cmds : List VkCommand) : List Nat :=
  cmds.filterMap fun c =>
    match c with
    | VkCommand.dispatch _ _ z => some z
    | _ => none

/-!  Context lifecycle (`render_compute_init`).  -/

/-- `RENDER_MAX_LAYER_RUNS_COUNT`: the bounded number of per-frame-slot layer
descriptor sets.  Modelled from the spec: the constant is defined in
`render_interface.h`, outside the core source; the value used here is 16 and
the theorems depend only on it being positive. -/
def RENDER_MAX_LAYER_RUNS_COUNT : Nat := 16

/-- Embedding of `struct render_compute`: the back-reference to the
resources (`none` when detached), the layer descriptor set handles, and the
shared descriptor set handle. -/
structure render_compute where
  r : Option render_resources
  layer_descriptor_sets : Nat → Option Nat
  shared_descriptor_set : Option Nat

/-- The allocation loop of `render_compute_init` (render_compute.c:298):
allocate descriptor sets for slots `i, i+1, …` (`remaining` of them) from
the pool; `alloc k` is the outcome of the allocation for slot `k`.  On the
first failure the loop stops and returns `false`, keeping the handles
already stored (`VK_CHK_WITH_RET` returns immediately without any
cleanup). -/
def init_layer_sets (alloc : Nat → Option Nat) :
    Nat → Nat → (Nat → Option Nat) → Bool × (Nat → Option Nat)
  | _, 0, sets => (true, sets)
  | i, remaining + 1, sets =>
    match alloc i with
    | none => (false, sets)
    | some handle =>
      init_layer_sets alloc (i + 1) remaining
        (fun j => if j = i then some handle else sets j)

/-- Embedding of `render_compute_init` (render_compute.c:288): the
back-reference `render->r` is assigned before any allocation; each
allocation failure returns `false` immediately, leaving the back-reference
and all previously stored handles in place.  On success the shared
descriptor set is allocated last (allocation index
`RENDER_MAX_LAYER_RUNS_COUNT`). -/
def render_compute_init (render : render_compute) (r : render_resources)
    (alloc : Nat → Option Nat) : Bool × render_compute :=
  let render1 : render_compute := { render with r := some r }
  match init_layer_sets alloc 0 RENDER_MAX_LAYER_RUNS_COUNT
      render1.layer_descriptor_sets with
  | (false, sets) => (false, { render1 with layer_descriptor_sets := sets })
  | (true, sets) =>
    match alloc RENDER_MAX_LAYER_RUNS_COUNT with
    | none => (false, { render1 with layer_descriptor_sets := sets })
    | some handle =>
      (true, { render1 with layer_descriptor_sets := sets,
                            shared_descriptor_set := some handle })

/-!  Concrete fixtures used by counterexamples and witnesses.  -/

/-- A concrete resources object with distinct handles, one view. -/
def sample_resources : render_resources :=
  { view_count := 1, src_binding := 0, distortion_binding := 1,
    target_binding := 2, ubo_binding := 3, clamp_to_edge := 10,
    mock_sampler := 11, mock_color_image_view := 12,
    distortion_image_views := fun i => 20 + i,
    uv_to_tanangle := fun i => 30 + i, distortion_ubo_buffer := 40,
    clear_ubo_buffer := 41, distortion_pipeline := 50,
    distortion_timewarp_pipeline := 51, clear_pipeline := 52,
    distortion_pipeline_layout := 53, layer_pipeline_layout := 54,
    layer_timewarp_pipeline := 55, layer_non_timewarp_pipeline := 56 }

/-- A descriptor set with nothing bound. -/
def empty_ds : DescriptorSetState := fun _ _ => none

/-- Uniform data left by a previous invocation: a stale non-identity
transform in every slot. -/
def sample_ubo : render_compute_distortion_ubo_data :=
  { views := fun _ => default, pre_transforms := fun _ => 0,
    transforms := fun _ => Mat4.arbitrary 7, post_transforms := fun _ => 0 }

/-- A shared state carrying the stale uniform data. -/
def sample_state : SharedState :=
  { shared_ds := empty_ds, distortion_ubo := sample_ubo,
    clear_ubo := sample_ubo }

/-- A freshly created, uninitialized context. -/
def render_uninitialized : render_compute :=
  { r := none, layer_descriptor_sets := fun _ => none,
    shared_descriptor_set := none }

/-!  Helper lemmas about the max folds.  -/

theorem foldl_max_eq_max_foldr {α : Type} (f : α → Nat) (l : List α) (a : Nat) :
    l.foldl (fun m v => max m (f v)) a = max a ((l.map f).foldr max 0) := by
  induction l generalizing a with
  | nil => simp
  | cons x xs ih => simp [ih, Nat.max_assoc]

theorem foldr_max_perm {l1 l2 : List Nat} (h : l1.Perm l2) :
    l1.foldr max 0 = l2.foldr max 0 := by
  induction h with
  | nil => rfl
  | cons x _ ih => simp [ih]
  | swap x y l => simp [Nat.max_left_comm]
  | trans _ _ ih1 ih2 => rw [ih1, ih2]

theorem foldr_max_le (xs : List Nat) (B : Nat) (hb : ∀ x ∈ xs, x ≤ B) :
    xs.foldr max 0 ≤ B := by
  induction xs with
  | nil => exact Nat.zero_le B
  | cons y l ih =>
    simp only [List.foldr, Nat.max_le]
    exact ⟨hb y (List.mem_cons_self y l), ih fun x hx => hb x (List.mem_cons_of_mem y hx)⟩

theorem le_foldr_max (xs : List Nat) (x : Nat) (hx : x ∈ xs) :
    x ≤ xs.foldr max 0 := by
  induction xs with
  | nil => cases hx
  | cons y l ih =>
    rcases List.mem_cons.mp hx with h | h
    · subst h; exact Nat.le_max_left _ _
    · exact Nat.le_trans (ih h) (Nat.le_max_right _ _)

theorem max_extent_w_eq_spec (views : List render_viewport_data) :
    max_extent_w views = spec_componentwise_max_w views := by
  simp [max_extent_w, spec_componentwise_max_w, spec_componentwise_max,
    foldl_max_eq_max_foldr]

theorem max_extent_h_eq_spec (views : List render_viewport_data) :
    max_extent_h views = spec_componentwise_max_h views := by
  simp [max_extent_h, spec_componentwise_max_h, spec_componentwise_max,
    foldl_max_eq_max_foldr]

theorem uint_divide_and_round_up_8_pos (w : Nat) (h1 : 1 ≤ w)
    (h2 : w ≤ 4294967288) : uint_divide_and_round_up w 8 ≠ 0 := by
  simp only [uint_divide_and_round_up, UINT32_MOD]
  omega

/-- C1: the claim as frozen fails for 32-bit extents above `2^32 - 8`: at
`w = 2^32 - 7` the wrapped sum `(w + 7) mod 2^32` is `0`, so the work-group
count is `0` and `0 * 8 < w`, violating the claimed coverage bound. -/
theorem C1_counterexample :
    ¬ (4294967289 ≤ uint_divide_and_round_up 4294967289 8 * 8) := by
  decide

/-- C1 (amended): for every extent `w` with `1 ≤ w ≤ 2^32 - 8` (so the
addition of 7 does not wrap) the work-group count `ceil_div(w,8)` satisfies
`ceil_div(w,8)*8 ≥ w` and `(ceil_div(w,8)-1)*8 < w`; a 1920x1080 viewport
yields dispatch dimensions `(240,135)` and a 1x1 viewport yields `(1,1)`. -/
theorem C1_amended (w : Nat) (h1 : 1 ≤ w) (h2 : w ≤ 4294967288) :
    (w ≤ uint_divide_and_round_up w 8 * 8 ∧
      (uint_divide_and_round_up w 8 - 1) * 8 < w) ∧
    calc_dispatch_dims_1_view { x := 0, y := 0, w := 1920, h := 1080 } = (240, 135) ∧
    calc_dispatch_dims_1_view { x := 0, y := 0, w := 1, h := 1 } = (1, 1) := by
  refine ⟨?_, by decide, by decide⟩
  simp only [uint_divide_and_round_up, UINT32_MOD]
  omega

/-- C1 witness: the amended claim instantiated at `w = 1920`. -/
theorem C1_amended_witness :
    1 ≤ 1920 ∧ 1920 ≤ 4294967288 ∧
    ((1920 ≤ uint_divide_and_round_up 1920 8 * 8 ∧
        (uint_divide_and_round_up 1920 8 - 1) * 8 < 1920) ∧
      calc_dispatch_dims_1_view { x := 0, y := 0, w := 1920, h := 1080 } = (240, 135) ∧
      calc_dispatch_dims_1_view { x := 0, y := 0, w := 1, h := 1 } = (1, 1)) :=
  ⟨by decide, by decide, C1_amended 1920 (by decide) (by decide)⟩

/-- C2: for a non-empty list of viewports, the multi-view dispatch dimensions
equal the single-view dispatch dimensions computed from the component-wise
maximum width and height, and the result is invariant under permutation of
the list. -/
theorem C2_views_max_and_perm (views views2 : List render_viewport_data)
    (hne : views ≠ []) (hperm : views.Perm views2) :
    calc_dispatch_dims_views views =
      calc_dispatch_dims_1_view
        { x := 0, y := 0,
          w := spec_componentwise_max_w views,
          h := spec_componentwise_max_h views } ∧
    calc_dispatch_dims_views views = calc_dispatch_dims_views views2 := by
  constructor
  · simp [calc_dispatch_dims_views, calc_dispatch_dims_1_view,
      max_extent_w_eq_spec, max_extent_h_eq_spec]
  · simp only [calc_dispatch_dims_views, max_extent_w_eq_spec,
      max_extent_h_eq_spec, spec_componentwise_max_w, spec_componentwise_max_h,
      spec_componentwise_max]
    rw [foldr_max_perm (hperm.map fun v => v.w),
      foldr_max_perm (hperm.map fun v => v.h)]

/-- C2 witness: two two-view lists that are permutations of each other. -/
theorem C2_views_max_and_perm_witness :
    ([⟨0, 0, 16, 8⟩, ⟨0, 0, 8, 24⟩] : List render_viewport_data) ≠ [] ∧
    ([⟨0, 0, 16, 8⟩, ⟨0, 0, 8, 24⟩] : List render_viewport_data).Perm
      [⟨0, 0, 8, 24⟩, ⟨0, 0, 16, 8⟩] ∧
    (calc_dispatch_dims_views [⟨0, 0, 16, 8⟩, ⟨0, 0, 8, 24⟩] =
        calc_dispatch_dims_1_view
          { x := 0, y := 0,
            w := spec_componentwise_max_w [⟨0, 0, 16, 8⟩, ⟨0, 0, 8, 24⟩],
            h := spec_componentwise_max_h [⟨0, 0, 16, 8⟩, ⟨0, 0, 8, 24⟩] } ∧
      calc_dispatch_dims_views [⟨0, 0, 16, 8⟩, ⟨0, 0, 8, 24⟩] =
        calc_dispatch_dims_views [⟨0, 0, 8, 24⟩, ⟨0, 0, 16, 8⟩]) :=
  ⟨by decide, by decide,
    C2_views_max_and_perm [⟨0, 0, 16, 8⟩, ⟨0, 0, 8, 24⟩]
      [⟨0, 0, 8, 24⟩, ⟨0, 0, 16, 8⟩] (by decide) (by decide)⟩

/-- C10: the division really is `(a + 7) / 8` in 32-bit modular arithmetic:
for every 32-bit `a` at or above `2^32 - 7` the addition wraps, the result is
`0`, strictly below the true ceiling `(a + 7) / 8`, and fails the coverage
bound `groups * 8 ≥ a`; while every extent `b` with `1 ≤ b ≤ 2^32 - 8`
still satisfies the coverage bound. -/
theorem C10_wraparound (a b : Nat) (h1 : 4294967289 ≤ a) (h2 : a < 4294967296)
    (h3 : 1 ≤ b) (h4 : b ≤ 4294967288) :
    (uint_divide_and_round_up a 8 = 0 ∧
      uint_divide_and_round_up a 8 < (a + 7) / 8 ∧
      uint_divide_and_round_up a 8 * 8 < a) ∧
    b ≤ uint_divide_and_round_up b 8 * 8 := by
  simp only [uint_divide_and_round_up, UINT32_MOD]
  omega

/-- C10 witness: instantiated at the wrapping extent `a = 2^32 - 7` and the
safe extent `b = 1920`. -/
theorem C10_wraparound_witness :
    4294967289 ≤ 4294967289 ∧ 4294967289 < 4294967296 ∧
    1 ≤ 1920 ∧ 1920 ≤ 4294967288 ∧
    ((uint_divide_and_round_up 4294967289 8 = 0 ∧
        uint_divide_and_round_up 4294967289 8 < (4294967289 + 7) / 8 ∧
        uint_divide_and_round_up 4294967289 8 * 8 < 4294967289) ∧
      1920 ≤ uint_divide_and_round_up 1920 8 * 8) :=
  ⟨by decide, by decide, by decide, by decide,
    C10_wraparound 4294967289 1920 (by decide) (by decide) (by decide) (by decide)⟩

/-!  Non-zero dispatch dimensions (claim C3).  -/

theorem calc_dispatch_1_view_nonzero (view : render_viewport_data)
    (h1 : 1 ≤ view.w) (h2 : view.w ≤ 4294967288)
    (h3 : 1 ≤ view.h) (h4 : view.h ≤ 4294967288) :
    ¬((calc_dispatch_dims_1_view view).1 = 0 ∨
      (calc_dispatch_dims_1_view view).2 = 0) := by
  simp only [calc_dispatch_dims_1_view]
  push_neg
  exact ⟨uint_divide_and_round_up_8_pos _ h1 h2,
    uint_divide_and_round_up_8_pos _ h3 h4⟩

theorem calc_dispatch_views_nonzero (l : List render_viewport_data)
    (hne : l ≠ [])
    (hb : ∀ v ∈ l, (1 ≤ v.w ∧ v.w ≤ 4294967288) ∧
      (1 ≤ v.h ∧ v.h ≤ 4294967288)) :
    ¬((calc_dispatch_dims_views l).1 = 0 ∨
      (calc_dispatch_dims_views l).2 = 0) := by
  obtain ⟨v0, hv0⟩ := List.exists_mem_of_ne_nil l hne
  have hw : 1 ≤ max_extent_w l ∧ max_extent_w l ≤ 4294967288 := by
    rw [max_extent_w_eq_spec]
    simp only [spec_componentwise_max_w, spec_componentwise_max]
    constructor
    · exact Nat.le_trans (hb v0 hv0).1.1
        (le_foldr_max _ _ (List.mem_map_of_mem _ hv0))
    · refine foldr_max_le _ _ ?_
      intro x hx
      obtain ⟨v, hv, rfl⟩ := List.mem_map.mp hx
      exact (hb v hv).1.2
  have hh : 1 ≤ max_extent_h l ∧ max_extent_h l ≤ 4294967288 := by
    rw [max_extent_h_eq_spec]
    simp only [spec_componentwise_max_h, spec_componentwise_max]
    constructor
    · exact Nat.le_trans (hb v0 hv0).2.1
        (le_foldr_max _ _ (List.mem_map_of_mem _ hv0))
    · refine foldr_max_le _ _ ?_
      intro x hx
      obtain ⟨v, hv, rfl⟩ := List.mem_map.mp hx
      exact (hb v hv).2.2
  simp only [calc_dispatch_dims_views]
  push_neg
  exact ⟨uint_divide_and_round_up_8_pos _ hw.1 hw.2,
    uint_divide_and_round_up_8_pos _ hh.1 hh.2⟩

/-- C3: the claim as frozen fails: a degenerate viewport (zero width and
height) is a possible input, and on it the dispatch geometry is `(0, 0)` and
the `assert(w != 0 && h != 0)` guarding the dispatch fails. -/
theorem C3_counterexample :
    calc_dispatch_dims_1_view { x := 0, y := 0, w := 0, h := 0 } = (0, 0) ∧
    (render_compute_layers sample_resources 0 (fun _ => 0) (fun _ => 0) 1 0
      { x := 0, y := 0, w := 0, h := 0 } false empty_ds).aborted = true :=
  ⟨rfl, rfl⟩

/-- C3 (amended): the dispatch geometry is non-zero in both dimensions —
and hence the assertions guarding every dispatch hold — for every viewport
whose width and height both lie in `[1, 2^32 - 8]` (for the multi-view
passes: every active view, with at least one active view). -/
theorem C3_amended (r : render_resources) (lubo : Nat) (lss lsiv : Nat → Nat)
    (lnum ltiv : Nat) (view : render_viewport_data) (ldtw : Bool)
    (lds : DescriptorSetState) (pss psiv prects : Nat → Nat) (pti ptiv : Nat)
    (trects tposes tfovs tnew : Nat → Nat) (tti ttiv : Nat) (cti ctiv : Nat)
    (views : List render_viewport_data) (st : SharedState)
    (h1 : 1 ≤ view.w) (h2 : view.w ≤ 4294967288)
    (h3 : 1 ≤ view.h) (h4 : view.h ≤ 4294967288)
    (h5 : views.take r.view_count ≠ [])
    (h6 : ∀ v ∈ views.take r.view_count,
      (1 ≤ v.w ∧ v.w ≤ 4294967288) ∧ (1 ≤ v.h ∧ v.h ≤ 4294967288)) :
    (render_compute_layers r lubo lss lsiv lnum ltiv view ldtw lds).aborted
      = false ∧
    (render_compute_projection r pss psiv prects pti ptiv views st).aborted
      = false ∧
    (render_compute_projection_timewarp r pss psiv trects tposes tfovs tnew
      tti ttiv views st).aborted = false ∧
    (render_compute_clear r cti ctiv views st).aborted = false := by
  refine ⟨?_, ?_, ?_, ?_⟩
  · simp only [render_compute_layers]
    rw [if_neg (calc_dispatch_1_view_nonzero view h1 h2 h3 h4)]
  · simp only [render_compute_projection]
    rw [if_neg (calc_dispatch_views_nonzero _ h5 h6)]
  · simp only [render_compute_projection_timewarp]
    rw [if_neg (calc_dispatch_views_nonzero _ h5 h6)]
  · simp only [render_compute_clear]
    rw [if_neg (calc_dispatch_views_nonzero _ h5 h6)]

/-- C3 witness: the amended claim instantiated at a 1920x1080 viewport. -/
theorem C3_amended_witness :
    1 ≤ ({ x := 0, y := 0, w := 1920, h := 1080 } : render_viewport_data).w ∧
    ({ x := 0, y := 0, w := 1920, h := 1080 } : render_viewport_data).w ≤ 4294967288 ∧
    1 ≤ ({ x := 0, y := 0, w := 1920, h := 1080 } : render_viewport_data).h ∧
    ({ x := 0, y := 0, w := 1920, h := 1080 } : render_viewport_data).h ≤ 4294967288 ∧
    ([({ x := 0, y := 0, w := 1920, h := 1080 } : render_viewport_data)].take
      sample_resources.view_count) ≠ [] ∧
    (∀ v ∈ ([({ x := 0, y := 0, w := 1920, h := 1080 } : render_viewport_data)].take
        sample_resources.view_count),
      (1 ≤ v.w ∧ v.w ≤ 4294967288) ∧ (1 ≤ v.h ∧ v.h ≤ 4294967288)) ∧
    ((render_compute_layers sample_resources 0 (fun _ => 0) (fun _ => 0) 1 0
        { x := 0, y := 0, w := 1920, h := 1080 } false empty_ds).aborted = false ∧
      (render_compute_projection sample_resources (fun _ => 0) (fun _ => 0)
        (fun _ => 0) 0 0 [{ x := 0, y := 0, w := 1920, h := 1080 }]
        sample_state).aborted = false ∧
      (render_compute_projection_timewarp sample_resources (fun _ => 0)
        (fun _ => 0) (fun _ => 0) (fun _ => 0) (fun _ => 0) (fun _ => 0) 0 0
        [{ x := 0, y := 0, w := 1920, h := 1080 }] sample_state).aborted = false ∧
      (render_compute_clear sample_resources 0 0
        [{ x := 0, y := 0, w := 1920, h := 1080 }] sample_state).aborted = false) :=
  ⟨by decide, by decide, by decide, by decide, by decide, by decide,
    C3_amended sample_resources 0 (fun _ => 0) (fun _ => 0) 1 0
      { x := 0, y := 0, w := 1920, h := 1080 } false empty_ds
      (fun _ => 0) (fun _ => 0) (fun _ => 0) 0 0
      (fun _ => 0) (fun _ => 0) (fun _ => 0) (fun _ => 0) 0 0 0 0
      [{ x := 0, y := 0, w := 1920, h := 1080 }] sample_state
      (by decide) (by decide) (by decide) (by decide) (by decide) (by decide)⟩

/-!  Barrier ordering (claim C4).  -/

theorem barrier_ordering_no_dispatch (cmds : List VkCommand) (t : Nat)
    (h : ∀ x y z, VkCommand.dispatch x y z ∉ cmds) :
    barrier_ordering_ok cmds t := by
  intro j x y z hj
  exfalso
  by_cases hl : j < cmds.length
  · rw [List.getD_eq_getElem cmds cmd_default hl] at hj
    exact h x y z (hj ▸ List.getElem_mem hl)
  · rw [List.getD_eq_default cmds cmd_default (Nat.le_of_not_lt hl)] at hj
    simp [cmd_default] at hj

theorem barrier_ordering_ok_of_five (t p l x y z : Nat) :
    barrier_ordering_ok
      [VkCommand.imageBarrier t 0 VK_ACCESS_SHADER_WRITE_BIT
         VkImageLayout.undefined VkImageLayout.general,
       VkCommand.bindPipeline p, VkCommand.bindDescriptorSets l,
       VkCommand.dispatch x y z,
       VkCommand.imageBarrier t VK_ACCESS_SHADER_WRITE_BIT
         VK_ACCESS_MEMORY_READ_BIT VkImageLayout.general
         VkImageLayout.presentSrcKhr] t := by
  intro j a b c hj
  rcases j with _ | _ | _ | _ | _ | j
  · simp [List.getD] at hj
  · simp [List.getD] at hj
  · simp [List.getD] at hj
  · exact ⟨⟨0, by omega, rfl⟩, ⟨4, by omega, rfl⟩⟩
  · simp [List.getD] at hj
  · rw [List.getD_eq_default _ _ (by simp)] at hj
    simp [cmd_default] at hj

/-- C4: the claim as frozen fails for the `layers` pass: a concrete
`render_compute_layers` call records a dispatch (at trace index 2) with no
image barrier anywhere in its recorded sequence, so no pre-dispatch barrier
precedes the dispatch that writes the target. -/
theorem C4_counterexample :
    ¬ barrier_ordering_ok
      (render_compute_layers sample_resources 0 (fun _ => 0) (fun _ => 0) 1 0
        { x := 0, y := 0, w := 8, h := 8 } false empty_ds).cmds 0 := by
  intro h
  have hd : (render_compute_layers sample_resources 0 (fun _ => 0)
      (fun _ => 0) 1 0 { x := 0, y := 0, w := 8, h := 8 } false
      empty_ds).cmds.getD 2 cmd_default = VkCommand.dispatch 1 1 1 := rfl
  obtain ⟨⟨i, hi, hpre⟩, -⟩ := h 2 1 1 1 hd
  rcases i with _ | _ | i
  · exact absurd hpre (by decide)
  · exact absurd hpre (by decide)
  · omega

/-- C4 (amended): the projection, projection-timewarp and clear passes do
record, for every input, the pre-dispatch barrier (undefined to general,
gating shader write) strictly before every dispatch in their sequence and
the post-dispatch barrier (general to present, shader write before memory
read) strictly after it; the `layers` pass records no image barriers at
all. -/
theorem C4_amended (r : render_resources) (pss psiv prects : Nat → Nat)
    (pti ptiv : Nat) (tss tsiv trects tposes tfovs tnew : Nat → Nat)
    (tti ttiv : Nat) (cti ctiv : Nat) (lubo : Nat) (lss lsiv : Nat → Nat)
    (lnum ltiv : Nat) (lview : render_viewport_data) (ldtw : Bool)
    (lds : DescriptorSetState) (views : List render_viewport_data)
    (st : SharedState) :
    barrier_ordering_ok
      (render_compute_projection r pss psiv prects pti ptiv views st).cmds
      pti ∧
    barrier_ordering_ok
      (render_compute_projection_timewarp r tss tsiv trects tposes tfovs tnew
        tti ttiv views st).cmds tti ∧
    barrier_ordering_ok
      (render_compute_clear r cti ctiv views st).cmds cti ∧
    (∀ img sa da ol nl, VkCommand.imageBarrier img sa da ol nl ∉
      (render_compute_layers r lubo lss lsiv lnum ltiv lview ldtw
        lds).cmds) := by
  refine ⟨?_, ?_, ?_, ?_⟩
  · simp only [render_compute_projection, vk_cmd_image_barrier_gpu_locked]
    split
    · exact barrier_ordering_no_dispatch _ _ (by intro x y z; simp)
    · exact barrier_ordering_ok_of_five _ _ _ _ _ _
  · simp only [render_compute_projection_timewarp,
      vk_cmd_image_barrier_gpu_locked]
    split
    · exact barrier_ordering_no_dispatch _ _ (by intro x y z; simp)
    · exact barrier_ordering_ok_of_five _ _ _ _ _ _
  · simp only [render_compute_clear, vk_cmd_image_barrier_gpu_locked]
    split
    · exact barrier_ordering_no_dispatch _ _ (by intro x y z; simp)
    · exact barrier_ordering_ok_of_five _ _ _ _ _ _
  · intro img sa da ol nl
    simp only [render_compute_layers]
    split <;> simp

/-!  Init failure behaviour (claim C5).  -/

theorem init_layer_sets_spec (alloc : Nat → Option Nat) :
    ∀ (remaining i k : Nat) (sets : Nat → Option Nat),
      alloc (i + k) = none →
      (∀ d, d < k → alloc (i + d) ≠ none) →
      (init_layer_sets alloc i remaining sets).1 = decide (remaining ≤ k) ∧
      (∀ j, i ≤ j → j < i + min k remaining →
        (init_layer_sets alloc i remaining sets).2 j = alloc j) ∧
      (∀ j, j < i ∨ i + min k remaining ≤ j →
        (init_layer_sets alloc i remaining sets).2 j = sets j) := by
  intro remaining
  induction remaining with
  | zero =>
    intro i k sets hfail hok
    refine ⟨?_, ?_, ?_⟩
    · simp only [init_layer_sets]
      exact (decide_eq_true (Nat.zero_le k)).symm
    · intro j hj1 hj2
      omega
    · intro j hj
      simp [init_layer_sets]
  | succ m ih =>
    intro i k sets hfail hok
    cases k with
    | zero =>
      have h0 : alloc i = none := by simpa using hfail
      refine ⟨?_, ?_, ?_⟩
      · simp [init_layer_sets, h0]
      · intro j hj1 hj2
        omega
      · intro j hj
        simp [init_layer_sets, h0]
    | succ t =>
      have h0 : alloc i ≠ none := by
        have := hok 0 (by omega)
        simpa using this
      rcases ho : alloc i with _ | hdl
      · exact absurd ho h0
      · have ihh := ih (i + 1) t
          (fun j => if j = i then some hdl else sets j)
          (by rw [show i + 1 + t = i + (t + 1) from by omega]; exact hfail)
          (by intro d hd
              rw [show i + 1 + d = i + (d + 1) from by omega]
              exact hok (d + 1) (by omega))
        obtain ⟨ih1, ih2, ih3⟩ := ihh
        refine ⟨?_, ?_, ?_⟩
        · simp only [init_layer_sets, ho]
          rw [ih1, decide_eq_decide]
          omega
        · intro j hj1 hj2
          simp only [init_layer_sets, ho]
          by_cases hji : j = i
          · subst hji
            rw [ih3 j (Or.inl (by omega))]
            simp [ho]
          · have := ih2 j (by omega) (by omega)
            exact this
        · intro j hj
          simp only [init_layer_sets, ho]
          rw [ih3 j (by omega)]
          simp [show j ≠ i from by omega]

/-- C5: the claim as frozen fails: with every pool allocation failing,
`render_compute_init` returns `false` but the context is not left fully
uninitialized — the back-reference to the resources object was assigned
before the first allocation and is still set after the failing call. -/
theorem C5_counterexample :
    (render_compute_init render_uninitialized sample_resources
      (fun _ => none)).1 = false ∧
    ((render_compute_init render_uninitialized sample_resources
      (fun _ => none)).2).r = some sample_resources ∧
    some sample_resources ≠ (none : Option render_resources) :=
  ⟨rfl, rfl, by simp⟩

/-- Unfolding lemma for `render_compute_init`, by definitional equality. -/
theorem render_compute_init_eq (render : render_compute)
    (r : render_resources) (alloc : Nat → Option Nat) :
    render_compute_init render r alloc =
      match init_layer_sets alloc 0 RENDER_MAX_LAYER_RUNS_COUNT
          render.layer_descriptor_sets with
      | (false, sets) =>
        (false, { render with r := some r, layer_descriptor_sets := sets })
      | (true, sets) =>
        match alloc RENDER_MAX_LAYER_RUNS_COUNT with
        | none =>
          (false, { render with r := some r, layer_descriptor_sets := sets })
        | some handle =>
          (true, { render with r := some r, layer_descriptor_sets := sets,
                               shared_descriptor_set := some handle }) := rfl

/-- C5 (amended): if the first failing descriptor-set allocation is the
k-th one (any k up to and including the shared-set allocation, which is
allocation number `RENDER_MAX_LAYER_RUNS_COUNT`), `render_compute_init`
returns `false`, but it does not leave the context fully uninitialized:
the back-reference to the resources object is assigned before any
allocation and remains set, every layer descriptor-set handle stored
before the failure remains in the returned context, and the slots at and
after the failing allocation — including the shared-set handle — are left
exactly as they were. -/
theorem C5_amended (render : render_compute) (r : render_resources)
    (alloc : Nat → Option Nat) (k : Nat)
    (hk : k ≤ RENDER_MAX_LAYER_RUNS_COUNT) (hfail : alloc k = none)
    (hok : ∀ j, j < k → alloc j ≠ none) :
    (render_compute_init render r alloc).1 = false ∧
    ((render_compute_init render r alloc).2).r = some r ∧
    (∀ j, j < k →
      ((render_compute_init render r alloc).2).layer_descriptor_sets j =
        alloc j) ∧
    (∀ j, k ≤ j →
      ((render_compute_init render r alloc).2).layer_descriptor_sets j =
        render.layer_descriptor_sets j) ∧
    ((render_compute_init render r alloc).2).shared_descriptor_set =
      render.shared_descriptor_set := by
  obtain ⟨hs1, hs2, hs3⟩ := init_layer_sets_spec alloc
    RENDER_MAX_LAYER_RUNS_COUNT 0 k render.layer_descriptor_sets
    (by simpa using hfail) (by intro d hd; simpa using hok d hd)
  rw [render_compute_init_eq]
  rcases h1 : init_layer_sets alloc 0 RENDER_MAX_LAYER_RUNS_COUNT
    render.layer_descriptor_sets with ⟨b, s⟩
  rw [h1] at hs1 hs2 hs3
  by_cases hcase : k < RENDER_MAX_LAYER_RUNS_COUNT
  · have hb : b = false := by
      rw [decide_eq_false (by omega)] at hs1
      exact hs1
    subst hb
    refine ⟨by simp, by simp, ?_, ?_, by simp⟩
    · intro j hj
      have := hs2 j (Nat.zero_le j) (by omega)
      simpa using this
    · intro j hj
      have := hs3 j (Or.inr (by omega))
      simpa using this
  · have hk2 : k = RENDER_MAX_LAYER_RUNS_COUNT := by omega
    subst hk2
    have hb : b = true := by
      rw [decide_eq_true (Nat.le_refl _)] at hs1
      exact hs1
    subst hb
    rw [hfail]
    refine ⟨by simp, by simp, ?_, ?_, by simp⟩
    · intro j hj
      have := hs2 j (Nat.zero_le j) (by omega)
      simpa using this
    · intro j hj
      have := hs3 j (Or.inr (by omega))
      simpa using this

/-- C5 witness: the amended claim instantiated with an allocator that
succeeds for the first three allocations (handles 100, 101, 102) and then
fails, so three stored handles survive the failing call. -/
theorem C5_amended_witness :
    3 ≤ RENDER_MAX_LAYER_RUNS_COUNT ∧
    ((fun n => if n = 3 then none else some (100 + n)) : Nat → Option Nat) 3
      = none ∧
    (∀ j, j < 3 →
      ((fun n => if n = 3 then none else some (100 + n)) : Nat → Option Nat)
        j ≠ none) ∧
    ((render_compute_init render_uninitialized sample_resources
        (fun n => if n = 3 then none else some (100 + n))).1 = false ∧
      ((render_compute_init render_uninitialized sample_resources
        (fun n => if n = 3 then none else some (100 + n))).2).r =
        some sample_resources ∧
      (∀ j, j < 3 →
        ((render_compute_init render_uninitialized sample_resources
          (fun n => if n = 3 then none else some (100 + n))).2).layer_descriptor_sets
          j = (fun n => if n = 3 then none else some (100 + n)) j) ∧
      (∀ j, 3 ≤ j →
        ((render_compute_init render_uninitialized sample_resources
          (fun n => if n = 3 then none else some (100 + n))).2).layer_descriptor_sets
          j = render_uninitialized.layer_descriptor_sets j) ∧
      ((render_compute_init render_uninitialized sample_resources
        (fun n => if n = 3 then none else some (100 + n))).2).shared_descriptor_set
        = render_uninitialized.shared_descriptor_set) :=
  ⟨by decide, rfl, by decide,
    C5_amended render_uninitialized sample_resources
      (fun n => if n = 3 then none else some (100 + n)) 3 (by decide) rfl
      (by decide)⟩

/-- C6: every `render_compute_layers` call records its dispatch (when the
non-zero assert passes, so a dispatch is recorded at all) with
`groupCountZ = 1`, and every projection, projection-timewarp or clear call
records its dispatch with `groupCountZ = 2`, for every input and view
count. -/
theorem C6_dispatch_depths (r : render_resources) (lubo : Nat)
    (lss lsiv : Nat → Nat) (lnum ltiv : Nat) (lview : render_viewport_data)
    (ldtw : Bool) (lds : DescriptorSetState) (pss psiv prects : Nat → Nat)
    (pti ptiv : Nat) (tss tsiv trects tposes tfovs tnew : Nat → Nat)
    (tti ttiv : Nat) (cti ctiv : Nat) (views : List render_viewport_data)
    (st : SharedState) :
    dispatch_depths
        (render_compute_layers r lubo lss lsiv lnum ltiv lview ldtw lds).cmds
      = (if (render_compute_layers r lubo lss lsiv lnum ltiv lview ldtw
          lds).aborted then [] else [1]) ∧
    dispatch_depths
        (render_compute_projection r pss psiv prects pti ptiv views st).cmds
      = (if (render_compute_projection r pss psiv prects pti ptiv views
          st).aborted then [] else [2]) ∧
    dispatch_depths
        (render_compute_projection_timewarp r tss tsiv trects tposes tfovs
          tnew tti ttiv views st).cmds
      = (if (render_compute_projection_timewarp r tss tsiv trects tposes
          tfovs tnew tti ttiv views st).aborted then [] else [2]) ∧
    dispatch_depths (render_compute_clear r cti ctiv views st).cmds
      = (if (render_compute_clear r cti ctiv views st).aborted then []
          else [2]) := by
  refine ⟨?_, ?_, ?_, ?_⟩
  · simp only [render_compute_layers]
    split_ifs <;> simp_all [dispatch_depths, vk_cmd_image_barrier_gpu_locked]
  · simp only [render_compute_projection]
    split_ifs <;> simp_all [dispatch_depths, vk_cmd_image_barrier_gpu_locked]
  · simp only [render_compute_projection_timewarp]
    split_ifs <;> simp_all [dispatch_depths, vk_cmd_image_barrier_gpu_locked]
  · simp only [render_compute_clear]
    split_ifs <;> simp_all [dispatch_depths, vk_cmd_image_barrier_gpu_locked]

/-!  Uniform-record freshness (claim C7).  -/

/-- C7: the claim as frozen fails: the projection pass does not write the
4x4 transform field of the per-view record (the claim requires the identity
there); a stale non-identity transform left by a previous invocation
survives the call unchanged. -/
theorem C7_counterexample :
    (render_compute_projection sample_resources (fun _ => 0) (fun _ => 0)
      (fun _ => 0) 0 0 [{ x := 0, y := 0, w := 8, h := 8 }]
      sample_state).st.distortion_ubo.transforms 0 = Mat4.arbitrary 7 ∧
    sample_state.distortion_ubo.transforms 0 = Mat4.arbitrary 7 ∧
    Mat4.arbitrary 7 ≠ Mat4.identity :=
  ⟨rfl, rfl, by decide⟩

/-- C7 (amended): only the projection-timewarp pass writes the per-view
record fresh in full (viewport, pre-transform, time warp transform,
post-transform); the projection pass writes only the viewport and
post-transform fields, leaving the pre-transform and transform fields
exactly as the previous invocation left them; the clear pass writes only
the viewport field of its record, leaving the other three fields
unchanged. -/
theorem C7_amended (r : render_resources)
    (tss tsiv trects tposes tfovs tnew : Nat → Nat) (tti ttiv : Nat)
    (pss psiv prects : Nat → Nat) (pti ptiv : Nat) (cti ctiv : Nat)
    (views : List render_viewport_data) (st : SharedState) (i : Nat)
    (hi : i < r.view_count) :
    ((render_compute_projection_timewarp r tss tsiv trects tposes tfovs tnew
        tti ttiv views st).st.distortion_ubo.views i = views.getD i default ∧
      (render_compute_projection_timewarp r tss tsiv trects tposes tfovs tnew
        tti ttiv views st).st.distortion_ubo.pre_transforms i =
        r.uv_to_tanangle i ∧
      (render_compute_projection_timewarp r tss tsiv trects tposes tfovs tnew
        tti ttiv views st).st.distortion_ubo.transforms i =
        render_calc_time_warp_matrix (tposes i) (tfovs i) (tnew i) ∧
      (render_compute_projection_timewarp r tss tsiv trects tposes tfovs tnew
        tti ttiv views st).st.distortion_ubo.post_transforms i = trects i) ∧
    ((render_compute_projection r pss psiv prects pti ptiv views
        st).st.distortion_ubo.views i = views.getD i default ∧
      (render_compute_projection r pss psiv prects pti ptiv views
        st).st.distortion_ubo.post_transforms i = prects i ∧
      (render_compute_projection r pss psiv prects pti ptiv views
        st).st.distortion_ubo.pre_transforms i =
        st.distortion_ubo.pre_transforms i ∧
      (render_compute_projection r pss psiv prects pti ptiv views
        st).st.distortion_ubo.transforms i =
        st.distortion_ubo.transforms i) ∧
    ((render_compute_clear r cti ctiv views st).st.clear_ubo.views i =
        views.getD i default ∧
      (render_compute_clear r cti ctiv views st).st.clear_ubo.pre_transforms i
        = st.clear_ubo.pre_transforms i ∧
      (render_compute_clear r cti ctiv views st).st.clear_ubo.transforms i =
        st.clear_ubo.transforms i ∧
      (render_compute_clear r cti ctiv views st).st.clear_ubo.post_transforms
        i = st.clear_ubo.post_transforms i) := by
  refine ⟨⟨?_, ?_, ?_, ?_⟩, ⟨?_, ?_, ?_, ?_⟩, ⟨?_, ?_, ?_, ?_⟩⟩ <;>
    · first
      | (simp only [render_compute_projection_timewarp]
         split_ifs <;> simp [hi])
      | (simp only [render_compute_projection]
         split_ifs <;> simp [hi])
      | (simp only [render_compute_clear]
         split_ifs <;> simp [hi])

/-- C7 witness: the amended claim instantiated at view 0 of a one-view
configuration with stale uniform data. -/
theorem C7_amended_witness :
    0 < sample_resources.view_count ∧
    (((render_compute_projection_timewarp sample_resources (fun _ => 0)
        (fun _ => 0) (fun n => 100 + n) (fun n => 200 + n) (fun n => 300 + n)
        (fun n => 400 + n) 0 0 [{ x := 1, y := 2, w := 8, h := 16 }]
        sample_state).st.distortion_ubo.views 0 =
        [({ x := 1, y := 2, w := 8, h := 16 } : render_viewport_data)].getD 0
          default ∧
      (render_compute_projection_timewarp sample_resources (fun _ => 0)
        (fun _ => 0) (fun n => 100 + n) (fun n => 200 + n) (fun n => 300 + n)
        (fun n => 400 + n) 0 0 [{ x := 1, y := 2, w := 8, h := 16 }]
        sample_state).st.distortion_ubo.pre_transforms 0 =
        sample_resources.uv_to_tanangle 0 ∧
      (render_compute_projection_timewarp sample_resources (fun _ => 0)
        (fun _ => 0) (fun n => 100 + n) (fun n => 200 + n) (fun n => 300 + n)
        (fun n => 400 + n) 0 0 [{ x := 1, y := 2, w := 8, h := 16 }]
        sample_state).st.distortion_ubo.transforms 0 =
        render_calc_time_warp_matrix ((fun n => 200 + n) 0)
          ((fun n => 300 + n) 0) ((fun n => 400 + n) 0) ∧
      (render_compute_projection_timewarp sample_resources (fun _ => 0)
        (fun _ => 0) (fun n => 100 + n) (fun n => 200 + n) (fun n => 300 + n)
        (fun n => 400 + n) 0 0 [{ x := 1, y := 2, w := 8, h := 16 }]
        sample_state).st.distortion_ubo.post_transforms 0 =
        (fun n => 100 + n) 0) ∧
    ((render_compute_projection sample_resources (fun _ => 0) (fun _ => 0)
        (fun n => 500 + n) 0 0 [{ x := 1, y := 2, w := 8, h := 16 }]
        sample_state).st.distortion_ubo.views 0 =
        [({ x := 1, y := 2, w := 8, h := 16 } : render_viewport_data)].getD 0
          default ∧
      (render_compute_projection sample_resources (fun _ => 0) (fun _ => 0)
        (fun n => 500 + n) 0 0 [{ x := 1, y := 2, w := 8, h := 16 }]
        sample_state).st.distortion_ubo.post_transforms 0 =
        (fun n => 500 + n) 0 ∧
      (render_compute_projection sample_resources (fun _ => 0) (fun _ => 0)
        (fun n => 500 + n) 0 0 [{ x := 1, y := 2, w := 8, h := 16 }]
        sample_state).st.distortion_ubo.pre_transforms 0 =
        sample_state.distortion_ubo.pre_transforms 0 ∧
      (render_compute_projection sample_resources (fun _ => 0) (fun _ => 0)
        (fun n => 500 + n) 0 0 [{ x := 1, y := 2, w := 8, h := 16 }]
        sample_state).st.distortion_ubo.transforms 0 =
        sample_state.distortion_ubo.transforms 0) ∧
    ((render_compute_clear sample_resources 0 0
        [{ x := 1, y := 2, w := 8, h := 16 }] sample_state).st.clear_ubo.views
        0 =
        [({ x := 1, y := 2, w := 8, h := 16 } : render_viewport_data)].getD 0
          default ∧
      (render_compute_clear sample_resources 0 0
        [{ x := 1, y := 2, w := 8, h := 16 }]
        sample_state).st.clear_ubo.pre_transforms 0 =
        sample_state.clear_ubo.pre_transforms 0 ∧
      (render_compute_clear sample_resources 0 0
        [{ x := 1, y := 2, w := 8, h := 16 }]
        sample_state).st.clear_ubo.transforms 0 =
        sample_state.clear_ubo.transforms 0 ∧
      (render_compute_clear sample_resources 0 0
        [{ x := 1, y := 2, w := 8, h := 16 }]
        sample_state).st.clear_ubo.post_transforms 0 =
        sample_state.clear_ubo.post_transforms 0)) :=
  ⟨by decide,
    C7_amended sample_resources (fun _ => 0) (fun _ => 0) (fun n => 100 + n)
      (fun n => 200 + n) (fun n => 300 + n) (fun n => 400 + n) 0 0
      (fun _ => 0) (fun _ => 0) (fun n => 500 + n) 0 0 0 0
      [{ x := 1, y := 2, w := 8, h := 16 }] sample_state 0 (by decide)⟩

/-!  Full-rebind invariance of the shared descriptor set (claim C8).  -/

theorem update_shared_overwrite (sb db tb ub vc : Nat)
    (ss1 siv1 dsam1 div1 ss2 siv2 dsam2 div2 : Nat → Nat)
    (tiv1 ubuf1 usz1 tiv2 ubuf2 usz2 : Nat) (ds : DescriptorSetState) :
    update_compute_shared_descriptor_set sb ss1 siv1 db dsam1 div1 tb tiv1 ub
        ubuf1 usz1 vc
        (update_compute_shared_descriptor_set sb ss2 siv2 db dsam2 div2 tb
          tiv2 ub ubuf2 usz2 vc ds) =
      update_compute_shared_descriptor_set sb ss1 siv1 db dsam1 div1 tb tiv1
        ub ubuf1 usz1 vc ds := by
  funext b i
  simp only [update_compute_shared_descriptor_set, write_binding]
  split_ifs <;> rfl

theorem render_compute_projection_shared_ds (r : render_resources)
    (ss siv rects : Nat → Nat) (ti tiv : Nat)
    (views : List render_viewport_data) (st : SharedState) :
    (render_compute_projection r ss siv rects ti tiv views st).st.shared_ds =
      update_compute_shared_descriptor_set r.src_binding ss siv
        r.distortion_binding (fun _ => r.clamp_to_edge)
        r.distortion_image_views r.target_binding tiv r.ubo_binding
        r.distortion_ubo_buffer VK_WHOLE_SIZE r.view_count st.shared_ds := by
  simp only [render_compute_projection]
  split_ifs <;> rfl

theorem render_compute_projection_timewarp_shared_ds (r : render_resources)
    (ss siv rects poses fovs new_poses : Nat → Nat) (ti tiv : Nat)
    (views : List render_viewport_data) (st : SharedState) :
    (render_compute_projection_timewarp r ss siv rects poses fovs new_poses
        ti tiv views st).st.shared_ds =
      update_compute_shared_descriptor_set r.src_binding ss siv
        r.distortion_binding (fun _ => r.clamp_to_edge)
        r.distortion_image_views r.target_binding tiv r.ubo_binding
        r.distortion_ubo_buffer VK_WHOLE_SIZE r.view_count st.shared_ds := by
  simp only [render_compute_projection_timewarp]
  split_ifs <;> rfl

theorem render_compute_clear_shared_ds (r : render_resources) (ti tiv : Nat)
    (views : List render_viewport_data) (st : SharedState) :
    (render_compute_clear r ti tiv views st).st.shared_ds =
      update_compute_shared_descriptor_set r.src_binding
        (fun _ => r.mock_sampler) (fun _ => r.mock_color_image_view)
        r.distortion_binding (fun _ => r.mock_sampler)
        r.distortion_image_views r.target_binding tiv r.ubo_binding
        r.clear_ubo_buffer VK_WHOLE_SIZE r.view_count st.shared_ds := by
  simp only [render_compute_clear]
  split_ifs <;> rfl

/-- C8: for the same projection inputs, the shared descriptor set contents
after a `render_compute_projection` call are identical whether or not a
clear pass, a projection-timewarp pass, or another projection pass (with any
inputs) was recorded earlier from the same starting state: every pass
rebuilds all four bindings, so the projection result depends only on the
projection's own inputs. -/
theorem C8_projection_full_rebind (r : render_resources)
    (pss psiv prects : Nat → Nat) (pti ptiv : Nat) (cti ctiv : Nat)
    (cviews : List render_viewport_data)
    (tss tsiv trects tposes tfovs tnew : Nat → Nat) (tti ttiv : Nat)
    (tviews : List render_viewport_data) (qss qsiv qrects : Nat → Nat)
    (qti qtiv : Nat) (qviews : List render_viewport_data)
    (views : List render_viewport_data) (st : SharedState) :
    (render_compute_projection r pss psiv prects pti ptiv views
        (render_compute_clear r cti ctiv cviews st).st).st.shared_ds =
      (render_compute_projection r pss psiv prects pti ptiv views
        st).st.shared_ds ∧
    (render_compute_projection r pss psiv prects pti ptiv views
        (render_compute_projection_timewarp r tss tsiv trects tposes tfovs
          tnew tti ttiv tviews st).st).st.shared_ds =
      (render_compute_projection r pss psiv prects pti ptiv views
        st).st.shared_ds ∧
    (render_compute_projection r pss psiv prects pti ptiv views
        (render_compute_projection r qss qsiv qrects qti qtiv qviews
          st).st).st.shared_ds =
      (render_compute_projection r pss psiv prects pti ptiv views
        st).st.shared_ds := by
  refine ⟨?_, ?_, ?_⟩
  · rw [render_compute_projection_shared_ds, render_compute_projection_shared_ds]
    have hc := render_compute_clear_shared_ds r cti ctiv cviews st
    rw [show (render_compute_clear r cti ctiv cviews st).st.shared_ds =
      update_compute_shared_descriptor_set r.src_binding
        (fun _ => r.mock_sampler) (fun _ => r.mock_color_image_view)
        r.distortion_binding (fun _ => r.mock_sampler)
        r.distortion_image_views r.target_binding ctiv r.ubo_binding
        r.clear_ubo_buffer VK_WHOLE_SIZE r.view_count st.shared_ds from hc]
    exact update_shared_overwrite _ _ _ _ _ _ _ _ _ _ _ _ _ _ _ _ _ _ _ _
  · rw [render_compute_projection_shared_ds, render_compute_projection_shared_ds,
      render_compute_projection_timewarp_shared_ds]
    exact update_shared_overwrite _ _ _ _ _ _ _ _ _ _ _ _ _ _ _ _ _ _ _ _
  · rw [render_compute_projection_shared_ds, render_compute_projection_shared_ds,
      render_compute_projection_shared_ds]
    exact update_shared_overwrite _ _ _ _ _ _ _ _ _ _ _ _ _ _ _ _ _ _ _ _

theorem vdt_beq_false_1 :
    (VkDescriptorType.storageImage == VkDescriptorType.combinedImageSampler)
      = false := by decide

theorem vdt_beq_false_2 :
    (VkDescriptorType.uniformBuffer == VkDescriptorType.combinedImageSampler)
      = false := by decide

theorem vdt_beq_false_3 :
    (VkDescriptorType.combinedImageSampler == VkDescriptorType.storageImage)
      = false := by decide

theorem vdt_beq_false_4 :
    (VkDescriptorType.uniformBuffer == VkDescriptorType.storageImage)
      = false := by decide

theorem vdt_beq_false_5 :
    (VkDescriptorType.combinedImageSampler == VkDescriptorType.uniformBuffer)
      = false := by decide

theorem vdt_beq_false_6 :
    (VkDescriptorType.storageImage == VkDescriptorType.uniformBuffer)
      = false := by decide

/-- C9: for every image count `N` up to the fixed maximum, the layer-shape
descriptor update is one batched operation of exactly three writes that
deposit exactly `N` combined image-sampler entries at the source binding,
exactly one storage-image entry at the target binding and exactly one
uniform-buffer entry at the UBO binding — `N + 2` entries in total, no more
and no fewer. -/
theorem C9_layer_write_counts (src_binding : Nat) (ss siv : Nat → Nat)
    (image_count target_binding tiv ubo_binding ubuf usz dset : Nat)
    (hmax : image_count ≤ RENDER_MAX_IMAGES_SIZE)
    (h1 : src_binding ≠ target_binding) (h2 : src_binding ≠ ubo_binding)
    (h3 : target_binding ≠ ubo_binding) :
    (update_compute_layer_descriptor_set_writes src_binding ss siv
      image_count target_binding tiv ubo_binding ubuf usz dset).length = 3 ∧
    count_descriptors_at
      (update_compute_layer_descriptor_set_writes src_binding ss siv
        image_count target_binding tiv ubo_binding ubuf usz dset)
      src_binding VkDescriptorType.combinedImageSampler = image_count ∧
    count_descriptors_at
      (update_compute_layer_descriptor_set_writes src_binding ss siv
        image_count target_binding tiv ubo_binding ubuf usz dset)
      target_binding VkDescriptorType.storageImage = 1 ∧
    count_descriptors_at
      (update_compute_layer_descriptor_set_writes src_binding ss siv
        image_count target_binding tiv ubo_binding ubuf usz dset)
      ubo_binding VkDescriptorType.uniformBuffer = 1 ∧
    total_descriptor_count
      (update_compute_layer_descriptor_set_writes src_binding ss siv
        image_count target_binding tiv ubo_binding ubuf usz dset)
      = image_count + 2 := by
  refine ⟨rfl, ?_, ?_, ?_, ?_⟩
  all_goals simp [count_descriptors_at, total_descriptor_count,
    update_compute_layer_descriptor_set_writes, List.filter, vdt_beq_false_1,
    vdt_beq_false_2, vdt_beq_false_3, vdt_beq_false_4, vdt_beq_false_5,
    vdt_beq_false_6, Bool.and_false, Bool.and_true]

/-- C9 witness: the claim instantiated at two source images and the three
distinct bindings 0, 1, 2. -/
theorem C9_layer_write_counts_witness :
    2 ≤ RENDER_MAX_IMAGES_SIZE ∧ (0 : Nat) ≠ 1 ∧ (0 : Nat) ≠ 2 ∧
    (1 : Nat) ≠ 2 ∧
    ((update_compute_layer_descriptor_set_writes 0 (fun n => 100 + n)
      (fun n => 200 + n) 2 1 7 2 8 9 3).length = 3 ∧
    count_descriptors_at
      (update_compute_layer_descriptor_set_writes 0 (fun n => 100 + n)
        (fun n => 200 + n) 2 1 7 2 8 9 3)
      0 VkDescriptorType.combinedImageSampler = 2 ∧
    count_descriptors_at
      (update_compute_layer_descriptor_set_writes 0 (fun n => 100 + n)
        (fun n => 200 + n) 2 1 7 2 8 9 3)
      1 VkDescriptorType.storageImage = 1 ∧
    count_descriptors_at
      (update_compute_layer_descriptor_set_writes 0 (fun n => 100 + n)
        (fun n => 200 + n) 2 1 7 2 8 9 3)
      2 VkDescriptorType.uniformBuffer = 1 ∧
    total_descriptor_count
      (update_compute_layer_descriptor_set_writes 0 (fun n => 100 + n)
        (fun n => 200 + n) 2 1 7 2 8 9 3) = 2 + 2) :=
  ⟨by decide, by decide, by decide, by decide,
    C9_layer_write_counts 0 (fun n => 100 + n) (fun n => 200 + n) 2 1 7 2 8 9
      3 (by decide) (by decide) (by decide) (by decide)⟩

/-- C4 witness: the amended claim instantiated at concrete inputs. -/
theorem C4_amended_witness :
    barrier_ordering_ok
      (render_compute_projection sample_resources (fun _ => 0) (fun _ => 0)
        (fun _ => 0) 0 0 [] sample_state).cmds 0 ∧
    barrier_ordering_ok
      (render_compute_projection_timewarp sample_resources (fun _ => 0)
        (fun _ => 0) (fun _ => 0) (fun _ => 0) (fun _ => 0) (fun _ => 0) 0 0
        [] sample_state).cmds 0 ∧
    barrier_ordering_ok
      (render_compute_clear sample_resources 0 0 [] sample_state).cmds 0 ∧
    (∀ img sa da ol nl, VkCommand.imageBarrier img sa da ol nl ∉
      (render_compute_layers sample_resources 0 (fun _ => 0) (fun _ => 0) 0 0
        { x := 0, y := 0, w := 0, h := 0 } false empty_ds).cmds) :=
  C4_amended sample_resources (fun _ => 0) (fun _ => 0) (fun _ => 0) 0 0
    (fun _ => 0) (fun _ => 0) (fun _ => 0) (fun _ => 0) (fun _ => 0)
    (fun _ => 0) 0 0 0 0 0 (fun _ => 0) (fun _ => 0) 0 0
    { x := 0, y := 0, w := 0, h := 0 } false empty_ds [] sample_state

/-- C6 witness: the claim instantiated at concrete inputs. -/
theorem C6_dispatch_depths_witness :
    dispatch_depths
        (render_compute_layers sample_resources 0 (fun _ => 0) (fun _ => 0) 0
          0 { x := 0, y := 0, w := 8, h := 8 } false empty_ds).cmds
      = (if (render_compute_layers sample_resources 0 (fun _ => 0)
          (fun _ => 0) 0 0 { x := 0, y := 0, w := 8, h := 8 } false
          empty_ds).aborted then [] else [1]) ∧
    dispatch_depths
        (render_compute_projection sample_resources (fun _ => 0) (fun _ => 0)
          (fun _ => 0) 0 0 [{ x := 0, y := 0, w := 8, h := 8 }]
          sample_state).cmds
      = (if (render_compute_projection sample_resources (fun _ => 0)
          (fun _ => 0) (fun _ => 0) 0 0 [{ x := 0, y := 0, w := 8, h := 8 }]
          sample_state).aborted then [] else [2]) ∧
    dispatch_depths
        (render_compute_projection_timewarp sample_resources (fun _ => 0)
          (fun _ => 0) (fun _ => 0) (fun _ => 0) (fun _ => 0) (fun _ => 0) 0
          0 [{ x := 0, y := 0, w := 8, h := 8 }] sample_state).cmds
      = (if (render_compute_projection_timewarp sample_resources (fun _ => 0)
          (fun _ => 0) (fun _ => 0) (fun _ => 0) (fun _ => 0) (fun _ => 0) 0
          0 [{ x := 0, y := 0, w := 8, h := 8 }] sample_state).aborted
          then [] else [2]) ∧
    dispatch_depths
        (render_compute_clear sample_resources 0 0
          [{ x := 0, y := 0, w := 8, h := 8 }] sample_state).cmds
      = (if (render_compute_clear sample_resources 0 0
          [{ x := 0, y := 0, w := 8, h := 8 }] sample_state).aborted then []
          else [2]) :=
  C6_dispatch_depths sample_resources 0 (fun _ => 0) (fun _ => 0) 0 0
    { x := 0, y := 0, w := 8, h := 8 } false empty_ds (fun _ => 0)
    (fun _ => 0) (fun _ => 0) 0 0 (fun _ => 0) (fun _ => 0) (fun _ => 0)
    (fun _ => 0) (fun _ => 0) (fun _ => 0) 0 0 0 0
    [{ x := 0, y := 0, w := 8, h := 8 }] sample_state

/-- C8 witness: the claim instantiated at concrete inputs. -/
theorem C8_projection_full_rebind_witness :
    (render_compute_projection sample_resources (fun _ => 0) (fun _ => 0)
        (fun _ => 0) 0 0 []
        (render_compute_clear sample_resources 0 0 []
          sample_state).st).st.shared_ds =
      (render_compute_projection sample_resources (fun _ => 0) (fun _ => 0)
        (fun _ => 0) 0 0 [] sample_state).st.shared_ds ∧
    (render_compute_projection sample_resources (fun _ => 0) (fun _ => 0)
        (fun _ => 0) 0 0 []
        (render_compute_projection_timewarp sample_resources (fun _ => 0)
          (fun _ => 0) (fun _ => 0) (fun _ => 0) (fun _ => 0) (fun _ => 0) 0
          0 [] sample_state).st).st.shared_ds =
      (render_compute_projection sample_resources (fun _ => 0) (fun _ => 0)
        (fun _ => 0) 0 0 [] sample_state).st.shared_ds ∧
    (render_compute_projection sample_resources (fun _ => 0) (fun _ => 0)
        (fun _ => 0) 0 0 []
        (render_compute_projection sample_resources (fun _ => 0)
          (fun _ => 0) (fun _ => 0) 0 0 []
          sample_state).st).st.shared_ds =
      (render_compute_projection sample_resources (fun _ => 0) (fun _ => 0)
        (fun _ => 0) 0 0 [] sample_state).st.shared_ds :=
  C8_projection_full_rebind sample_resources (fun _ => 0) (fun _ => 0)
    (fun _ => 0) 0 0 0 0 [] (fun _ => 0) (fun _ => 0) (fun _ => 0)
    (fun _ => 0) (fun _ => 0) (fun _ => 0) 0 0 [] (fun _ => 0) (fun _ => 0)
    (fun _ => 0) 0 0 [] [] sample_state
